import Mathlib

/-
Shallow embedding of the buddy_schedule backend (src/src/models.rs,
src/src/repo.rs, src/src/lib.rs) for checking the natural-language
specification against the code.

Modelling conventions:
  * identifiers (uuid::Uuid) are Nat; freshness of Uuid::new_v4 is modelled
    by an explicit fresh id drawn from a counter threaded through the state;
  * UTC instants (chrono::DateTime<Utc>) are Int minutes since the epoch;
    NaiveDate values are Int day numbers (days since 1970-01-01), and
    days_from_civil converts a civil date to its day number;
  * Rust HashMap state is modelled as a list of entries whose order stands
    for the unspecified iteration order of the map; lookups never depend on
    that order, and where the code iterates the map (list operations) the
    order-dependence is part of what is being verified;
  * fallible database statements of the durable adapter are modelled with
    explicit failure oracles (a Bool per statement);
  * Utc::now() readings are an explicit now parameter.
-/

namespace BuddySchedule

abbrev Uuid := Nat

/-- models/ScheduleRole (models.rs lines 7-10). -/
inductive ScheduleRole where
  | Admin
  | User
deriving DecidableEq

/-- models/Period (models.rs lines 35-40). -/
inductive Period where
  | Morning
  | Afternoon
  | Night
  | Sleep
deriving DecidableEq

/-- error/AppError (error.rs lines 4-17). -/
inductive AppError where
  | Unauthorized
  | Forbidden
  | NotFound
  | BadRequest (msg : String)
  | Conflict (msg : String)
  | Internal
deriving DecidableEq

/-- models/User (models.rs lines 68-73). -/
structure User where
  id : Uuid
  email : String
  is_superadmin : Bool
  created_at : Int
deriving DecidableEq

/-- models/Schedule (models.rs lines 76-83). -/
structure Schedule where
  id : Uuid
  name : String
  subject_type : String
  subject_name : String
  created_by : Uuid
  created_at : Int
deriving DecidableEq

/-- models/Shift (models.rs lines 92-101). -/
structure Shift where
  id : Uuid
  schedule_id : Uuid
  starts_at : Int
  ends_at : Int
  period : Period
  assigned_user_id : Option Uuid
  created_by : Uuid
  created_at : Int
deriving DecidableEq

/-- models/ShiftComment (models.rs lines 104-110). -/
structure ShiftComment where
  id : Uuid
  shift_id : Uuid
  user_id : Uuid
  body : String
  created_at : Int
deriving DecidableEq

/-- lib/TemplateSlot (lib.rs lines 486-491): one weekly slot of a rotation
template definition; start and end are clock-time strings. -/
structure TemplateSlot where
  dow : Int
  period : Period
  start : String
  «end» : String
deriving DecidableEq

/-- models/RotationTemplate (models.rs lines 113-120). The stored
serde_json::Value definition is modelled post-deserialization: some slots
when the JSON deserializes into lib/TemplateDef, none when it does not
(the BadRequest branch of lib.rs line 519-520). -/
structure RotationTemplate where
  id : Uuid
  schedule_id : Uuid
  name : String
  definition : Option (List TemplateSlot)
  created_by : Uuid
  created_at : Int
deriving DecidableEq

/-- repo/NewUser (repo.rs lines 18-22). -/
structure NewUser where
  email : String
  password_hash : String
  is_superadmin : Bool
deriving DecidableEq

/-- repo/NewSchedule (repo.rs lines 25-30). -/
structure NewSchedule where
  name : String
  subject_type : String
  subject_name : String
  created_by : Uuid
deriving DecidableEq

/-- repo/NewShift (repo.rs lines 33-39). -/
structure NewShift where
  schedule_id : Uuid
  starts_at : Int
  ends_at : Int
  period : Period
  created_by : Uuid
deriving DecidableEq

/-- repo/NewShiftComment (repo.rs lines 42-46). -/
structure NewShiftComment where
  shift_id : Uuid
  user_id : Uuid
  body : String
deriving DecidableEq

/-- repo/NewTemplate (repo.rs lines 49-54). -/
structure NewTemplate where
  schedule_id : Uuid
  name : String
  definition : Option (List TemplateSlot)
  created_by : Uuid
deriving DecidableEq

/-- repo/MemState (repo.rs lines 621-628): the aggregate in-memory state
behind the RwLock. Each HashMap is a list of its entries; next_id models
the fresh-uuid supply. -/
structure MemState where
  users : List (User × String)
  schedules : List Schedule
  members : List ((Uuid × Uuid) × ScheduleRole)
  shifts : List Shift
  comments : List (Uuid × List ShiftComment)
  templates : List RotationTemplate
  next_id : Uuid
deriving DecidableEq

/-- MemRepo::count_users (repo.rs lines 643-645): users.len(). -/
def MemRepo.count_users (st : MemState) : Int :=
  (st.users.length : Int)

/-- MemRepo::create_user (repo.rs lines 647-661): Conflict when some stored
user already has the email, else insert a fresh user. -/
def MemRepo.create_user (now : Int) (nu : NewUser) (st : MemState) :
    Except AppError User × MemState :=
  if st.users.any (fun p => p.1.email == nu.email) then
    (.error (.Conflict "email already exists"), st)
  else
    let user : User :=
      { id := st.next_id, email := nu.email,
        is_superadmin := nu.is_superadmin, created_at := now }
    (.ok user,
      { st with users := st.users ++ [(user, nu.password_hash)],
                next_id := st.next_id + 1 })

/-- MemRepo::get_user (repo.rs lines 671-679): lookup by id. -/
def MemRepo.get_user (user_id : Uuid) (st : MemState) : Option User :=
  (st.users.find? (fun p => p.1.id == user_id)).map (fun p => p.1)

/-- MemRepo::create_schedule (repo.rs lines 681-695): under one exclusive
write lock, insert the schedule and the (schedule, creator) -> Admin
membership together. -/
def MemRepo.create_schedule (now : Int) (ns : NewSchedule) (st : MemState) :
    Except AppError Schedule × MemState :=
  let schedule : Schedule :=
    { id := st.next_id, name := ns.name, subject_type := ns.subject_type,
      subject_name := ns.subject_name, created_by := ns.created_by,
      created_at := now }
  (.ok schedule,
    { st with schedules := st.schedules ++ [schedule],
              members := st.members ++ [((st.next_id, ns.created_by), .Admin)],
              next_id := st.next_id + 1 })

/-- MemRepo::get_schedule_role (repo.rs lines 726-738): lookup of the
(schedule, user) membership entry. -/
def MemRepo.get_schedule_role (schedule_id user_id : Uuid) (st : MemState) :
    Option ScheduleRole :=
  (st.members.find? (fun p => p.1.1 == schedule_id && p.1.2 == user_id)).map
    (fun p => p.2)

/-- MemRepo::list_schedule_members (repo.rs lines 740-755): iterate the
members map (in its unspecified iteration order, here the entry-list
order), keep the entries of the schedule whose user exists, no sort. -/
def MemRepo.list_schedule_members (schedule_id : Uuid) (st : MemState) :
    List (User × ScheduleRole) :=
  st.members.filterMap (fun p =>
    if p.1.1 == schedule_id then
      match st.users.find? (fun q => q.1.id == p.1.2) with
      | some q => some (q.1, p.2)
      | none => none
    else none)

/-- MemRepo::add_member (repo.rs lines 757-770): Conflict when the
(schedule, user) key is already present, else insert. -/
def MemRepo.add_member (schedule_id user_id : Uuid) (role : ScheduleRole)
    (st : MemState) : Except AppError Unit × MemState :=
  if st.members.any (fun p => p.1.1 == schedule_id && p.1.2 == user_id) then
    (.error (.Conflict "user already in schedule"), st)
  else
    (.ok (), { st with members := st.members ++ [((schedule_id, user_id), role)] })

/-- MemRepo::set_member_role (repo.rs lines 772-785): NotFound when the key
is absent, else overwrite the role at the key. -/
def MemRepo.set_member_role (schedule_id user_id : Uuid) (role : ScheduleRole)
    (st : MemState) : Except AppError Unit × MemState :=
  if st.members.any (fun p => p.1.1 == schedule_id && p.1.2 == user_id) then
    (.ok (),
      { st with members := st.members.map (fun p =>
          if p.1.1 == schedule_id && p.1.2 == user_id then (p.1, role) else p) })
  else
    (.error .NotFound, st)

/-- MemRepo::create_shift (repo.rs lines 787-802): insert a fresh shift with
assigned_user_id unset; the in-memory insert itself cannot fail. -/
def MemRepo.create_shift (now : Int) (ns : NewShift) (st : MemState) :
    Shift × MemState :=
  let shift : Shift :=
    { id := st.next_id, schedule_id := ns.schedule_id,
      starts_at := ns.starts_at, ends_at := ns.ends_at, period := ns.period,
      assigned_user_id := none, created_by := ns.created_by,
      created_at := now }
  (shift, { st with shifts := st.shifts ++ [shift], next_id := st.next_id + 1 })

/-- MemRepo::list_shifts (repo.rs lines 804-819): filter the shifts of the
schedule with from <= starts_at < to, then sort by starts_at. -/
def MemRepo.list_shifts (schedule_id : Uuid) (tFrom tTo : Int) (st : MemState) :
    List Shift :=
  List.insertionSort (fun a b => a.starts_at ≤ b.starts_at)
    (st.shifts.filter (fun x =>
      x.schedule_id == schedule_id &&
      decide (tFrom ≤ x.starts_at) && decide (x.starts_at < tTo)))

/-- MemRepo::get_shift (repo.rs lines 821-823): lookup by id. -/
def MemRepo.get_shift (shift_id : Uuid) (st : MemState) : Option Shift :=
  st.shifts.find? (fun x => x.id == shift_id)

/-- MemRepo::assign_shift (repo.rs lines 825-832): NotFound when the shift
is absent, else overwrite its assigned_user_id with the given optional
user. -/
def MemRepo.assign_shift (shift_id : Uuid) (assigned_user_id : Option Uuid)
    (st : MemState) : Except AppError Unit × MemState :=
  if st.shifts.any (fun x => x.id == shift_id) then
    (.ok (),
      { st with shifts := st.shifts.map (fun x =>
          if x.id == shift_id then { x with assigned_user_id := assigned_user_id }
          else x) })
  else
    (.error .NotFound, st)

/-- MemRepo::add_shift_comment (repo.rs lines 834-845): push a fresh comment
onto the per-shift comment list. -/
def MemRepo.add_shift_comment (now : Int) (nc : NewShiftComment) (st : MemState) :
    ShiftComment × MemState :=
  let c : ShiftComment :=
    { id := st.next_id, shift_id := nc.shift_id, user_id := nc.user_id,
      body := nc.body, created_at := now }
  let comments :=
    if st.comments.any (fun p => p.1 == nc.shift_id) then
      st.comments.map (fun p =>
        if p.1 == nc.shift_id then (p.1, p.2 ++ [c]) else p)
    else
      st.comments ++ [(nc.shift_id, [c])]
  (c, { st with comments := comments, next_id := st.next_id + 1 })

/-- MemRepo::create_template (repo.rs lines 858-870): insert a fresh
rotation template. -/
def MemRepo.create_template (now : Int) (nt : NewTemplate) (st : MemState) :
    RotationTemplate × MemState :=
  let t : RotationTemplate :=
    { id := st.next_id, schedule_id := nt.schedule_id, name := nt.name,
      definition := nt.definition, created_by := nt.created_by,
      created_at := now }
  (t, { st with templates := st.templates ++ [t], next_id := st.next_id + 1 })

/-- MemRepo::get_template (repo.rs lines 885-893): lookup by id. -/
def MemRepo.get_template (template_id : Uuid) (st : MemState) :
    Option RotationTemplate :=
  st.templates.find? (fun t => t.id == template_id)

/-- One row of the schedule_member table of the durable adapter (spec §6:
five tables mirroring the entity model; rows carry a created_at used by
the ORDER BY of PgRepo::list_schedule_members). -/
structure ScheduleMemberRow where
  schedule_id : Uuid
  user_id : Uuid
  role : ScheduleRole
  created_at : Int
deriving DecidableEq

/-- The tables of the durable adapter that the verified operations touch
(repo.rs PgRepo, backed by the relational store). Row-list order stands
for physical row order, which no verified query depends on except through
an explicit ORDER BY. -/
structure PgState where
  app_user : List (User × String)
  schedule : List Schedule
  schedule_member : List ScheduleMemberRow
  shift : List Shift
  next_id : Uuid
deriving DecidableEq

/-- PgRepo::create_schedule (repo.rs lines 199-235): two sequential INSERT
statements with no enclosing transaction. Each statement may fail at the
store (modelled by the two oracles); a failure maps to Internal and leaves
whatever was already committed in place. -/
def PgRepo.create_schedule (now : Int) (failScheduleInsert failMemberInsert : Bool)
    (ns : NewSchedule) (st : PgState) : Except AppError Schedule × PgState :=
  if failScheduleInsert then
    (.error .Internal, st)
  else
    let schedule : Schedule :=
      { id := st.next_id, name := ns.name, subject_type := ns.subject_type,
        subject_name := ns.subject_name, created_by := ns.created_by,
        created_at := now }
    let st1 : PgState :=
      { st with schedule := st.schedule ++ [schedule], next_id := st.next_id + 1 }
    if failMemberInsert then
      (.error .Internal, st1)
    else
      (.ok schedule,
        { st1 with schedule_member := st1.schedule_member ++
            [{ schedule_id := schedule.id, user_id := ns.created_by,
               role := .Admin, created_at := now }] })

/-- PgRepo::list_shifts (repo.rs lines 426-463): WHERE schedule_id = $1 AND
starts_at >= $2 AND starts_at < $3 ORDER BY starts_at ASC. -/
def PgRepo.list_shifts (schedule_id : Uuid) (tFrom tTo : Int) (st : PgState) :
    List Shift :=
  List.insertionSort (fun a b => a.starts_at ≤ b.starts_at)
    (st.shift.filter (fun x =>
      x.schedule_id == schedule_id &&
      decide (tFrom ≤ x.starts_at) && decide (x.starts_at < tTo)))

/-- PgRepo::list_schedule_members (repo.rs lines 312-345): join app_user,
WHERE schedule_id = $1 ORDER BY sm.created_at. -/
def PgRepo.list_schedule_members (schedule_id : Uuid) (st : PgState) :
    List (User × ScheduleRole) :=
  (List.insertionSort (fun a b => a.created_at ≤ b.created_at)
      (st.schedule_member.filter (fun r => r.schedule_id == schedule_id))).filterMap
    (fun r =>
      match st.app_user.find? (fun q => q.1.id == r.user_id) with
      | some q => some (q.1, r.role)
      | none => none)

/-- Value of a decimal digit character, none otherwise. -/
def digitVal (c : Char) : Option Nat :=
  if c.isDigit then some (c.toNat - 48) else none

/-- Greedy scan of one or two decimal digits, as the chrono numeric parser
does for a width-2 field such as %H or %M. -/
def scanNum2 : List Char → Option (Nat × List Char)
  | [] => none
  | c :: rest =>
    match digitVal c with
    | none => none
    | some d =>
      match rest with
      | c2 :: rest2 =>
        match digitVal c2 with
        | some d2 => some (d * 10 + d2, rest2)
        | none => some (d, c2 :: rest2)
      | [] => some (d, [])

/-- NaiveTime::parse_from_str(s, "%H:%M") (lib.rs lines 527-530): one or two
digits of hour, a literal colon, one or two digits of minute, the whole
input consumed, hour in 0..=23 and minute in 0..=59. Result in minutes of
the day paired as (hour, minute). -/
def parseHHMM (s : String) : Option (Nat × Nat) :=
  match scanNum2 s.toList with
  | none => none
  | some (h, rest) =>
    match rest with
    | ':' :: rest2 =>
      match scanNum2 rest2 with
      | none => none
      | some (m, rest3) =>
        if rest3 = [] ∧ h ≤ 23 ∧ m ≤ 59 then some (h, m) else none
    | _ => none

/-- Day number (days since 1970-01-01) of a civil date, the standard
civil-from-days inverse used to give the NaiveDate values of the code a
concrete numeric meaning. -/
def days_from_civil (y m d : Int) : Int :=
  let y2 : Int := if m ≤ 2 then y - 1 else y
  let era : Int := (if 0 ≤ y2 then y2 else y2 - 399) / 400
  let yoe : Int := y2 - era * 400
  let mp : Int := (m + 9) % 12
  let doy : Int := (153 * mp + 2) / 5 + d - 1
  let doe : Int := yoe * 365 + yoe / 4 - yoe / 100 + doy
  era * 146097 + doe - 719468

/-- Upper bound of the representable chrono NaiveDate range, as a day
number; NaiveDate::checked_add_signed returns None past it. Its exact
value matters to no verified claim (the slot day offset is at most 6). -/
def chrono_max_day : Int := days_from_civil 262143 12 31

/-- Minutes-since-epoch instant of a day number combined with a clock time,
as NaiveDate::and_time produces a naive instant interpreted as UTC
(lib.rs lines 536-543). -/
def instantOf (day : Int) (hm : Nat × Nat) : Int :=
  day * 1440 + (hm.1 * 60 + hm.2 : Nat)

/-- Per-slot computation of apply_template (lib.rs lines 524-543): validate
dow in 0..=6, parse both clock times, add dow days to week_start, combine
into start and end instants, and apply the overnight rule (end <= start
gets exactly one extra calendar day). Returns the (start, end) instants. -/
def expand_slot (week_start : Int) (slot : TemplateSlot) :
    Except AppError (Int × Int) :=
  if ¬(0 ≤ slot.dow ∧ slot.dow ≤ 6) then
    .error (.BadRequest "slot.dow must be 0..6")
  else
    match parseHHMM slot.start with
    | none => .error (.BadRequest "slot.start must be HH:MM")
    | some startHM =>
      match parseHHMM slot.«end» with
      | none => .error (.BadRequest "slot.end must be HH:MM")
      | some endHM =>
        let day : Int := week_start + slot.dow
        if chrono_max_day < day then .error (.BadRequest "invalid date")
        else
          let start_naive := instantOf day startHM
          let end_naive0 := instantOf day endHM
          let end_naive :=
            if end_naive0 ≤ start_naive then end_naive0 + 1440 else end_naive0
          .ok (start_naive, end_naive)

/-- ASCII whitespace test used by the string helpers below. -/
def isWsChar (c : Char) : Bool :=
  c == ' ' || c == '\t' || c == '\n' || c == '\r'

/-- str::trim of Rust, modelled structurally on the character list
(whitespace restricted to ASCII). -/
def rust_trim (s : String) : String :=
  String.mk ((((s.data.dropWhile isWsChar).reverse).dropWhile isWsChar).reverse)

/-- str::to_lowercase of Rust, modelled as per-character ASCII lowering. -/
def rust_to_lowercase (s : String) : String :=
  String.mk (s.data.map Char.toLower)

/-- str::is_empty, on the character list. -/
def rust_is_empty (s : String) : Bool :=
  s.data.isEmpty

/-- lib/AuthUser (lib.rs lines 33-37): the already-authenticated caller. -/
structure AuthUser where
  id : Uuid
  is_superadmin : Bool
deriving DecidableEq

/-- lib/require_member_or_superadmin (lib.rs lines 181-194): superadmins are
Admin without a membership lookup; otherwise the membership role, else
Forbidden. -/
def require_member_or_superadmin (au : AuthUser) (schedule_id : Uuid)
    (st : MemState) : Except AppError ScheduleRole :=
  if au.is_superadmin then .ok .Admin
  else
    match MemRepo.get_schedule_role schedule_id au.id st with
    | some role => .ok role
    | none => .error .Forbidden

/-- lib/require_admin_or_superadmin (lib.rs lines 196-213): superadmins pass;
otherwise the caller must hold the Admin role, else Forbidden. -/
def require_admin_or_superadmin (au : AuthUser) (schedule_id : Uuid)
    (st : MemState) : Except AppError Unit :=
  if au.is_superadmin then .ok ()
  else
    match MemRepo.get_schedule_role schedule_id au.id st with
    | none => .error .Forbidden
    | some role => if role ≠ ScheduleRole.Admin then .error .Forbidden else .ok ()

/-- The password-hashing collaborator (auth.rs), out of the verified core;
modelled as an opaque pure tagging of the password. -/
def hash_password (password : String) : String :=
  "hash:" ++ password

/-- lib/register (lib.rs lines 130-154) against the in-memory adapter:
normalize the email, validate it and the password length (bytes), decide
is_superadmin by count_users() == 0, then create the user. Token issue is
transport and out of the model. -/
def register (email password : String) (now : Int) (st : MemState) :
    Except AppError User × MemState :=
  let e := rust_to_lowercase (rust_trim email)
  if rust_is_empty e = true ∨ password.utf8ByteSize < 8 then
    (.error (.BadRequest "email must be set and password must be >= 8 chars"), st)
  else
    let is_superadmin := MemRepo.count_users st == 0
    MemRepo.create_user now
      { email := e, password_hash := hash_password password,
        is_superadmin := is_superadmin } st

/-- lib/assign_shift (lib.rs lines 379-402) against the in-memory adapter:
fetch the shift (NotFound), membership check, default the target to the
caller, Forbidden when a non-admin non-superadmin targets another user,
else persist Some(target). -/
def assign_shift (au : AuthUser) (shift_id : Uuid) (req_assigned_user_id : Option Uuid)
    (st : MemState) : Except AppError Unit × MemState :=
  match MemRepo.get_shift shift_id st with
  | none => (.error .NotFound, st)
  | some shift =>
    match require_member_or_superadmin au shift.schedule_id st with
    | .error e => (.error e, st)
    | .ok role =>
      let target := req_assigned_user_id.getD au.id
      if target ≠ au.id ∧ ¬(au.is_superadmin = true ∨ role = ScheduleRole.Admin) then
        (.error .Forbidden, st)
      else
        MemRepo.assign_shift shift_id (some target) st

/-- lib/add_shift_comment (lib.rs lines 409-439) against the in-memory
adapter: fetch the shift (NotFound), membership check, then Forbidden
unless superadmin or schedule Admin or the assigned user, then the
nonempty-body check, then insert. -/
def add_shift_comment (au : AuthUser) (shift_id : Uuid) (body : String)
    (now : Int) (st : MemState) : Except AppError ShiftComment × MemState :=
  match MemRepo.get_shift shift_id st with
  | none => (.error .NotFound, st)
  | some shift =>
    match require_member_or_superadmin au shift.schedule_id st with
    | .error e => (.error e, st)
    | .ok role =>
      if ¬(au.is_superadmin = true) ∧ role ≠ ScheduleRole.Admin ∧
          shift.assigned_user_id ≠ some au.id then
        (.error .Forbidden, st)
      else if rust_is_empty (rust_trim body) = true then
        (.error (.BadRequest "comment body is required"), st)
      else
        let (c, st1) := MemRepo.add_shift_comment now
          { shift_id := shift_id, user_id := au.id, body := rust_trim body } st
        (.ok c, st1)

/-- The per-slot insert loop of lib/apply_template (lib.rs lines 522-556):
expand each slot in input order and insert a shift for it; the first slot
that fails to expand aborts with its error, keeping the state already
built by the earlier inserts. -/
def apply_template_loop (schedule_id created_by : Uuid) (week_start now : Int) :
    List TemplateSlot → MemState → Except AppError (List Shift) × MemState
  | [], st => (.ok [], st)
  | slot :: rest, st =>
    match expand_slot week_start slot with
    | .error e => (.error e, st)
    | .ok se =>
      let (shift, st1) := MemRepo.create_shift now
        { schedule_id := schedule_id, starts_at := se.1, ends_at := se.2,
          period := slot.period, created_by := created_by } st
      match apply_template_loop schedule_id created_by week_start now rest st1 with
      | (.ok shifts, st2) => (.ok (shift :: shifts), st2)
      | (.error e, st2) => (.error e, st2)

/-- lib/apply_template (lib.rs lines 498-559) against the in-memory adapter:
admin check, template fetch (NotFound), owning-schedule check (Forbidden),
definition deserialization (BadRequest), then the per-slot insert loop.
The week_start argument is the already-parsed YYYY-MM-DD day number; the
date-string parse (lib.rs line 516) is transport-side. -/
def apply_template (au : AuthUser) (schedule_id template_id : Uuid)
    (week_start now : Int) (st : MemState) :
    Except AppError (List Shift) × MemState :=
  match require_admin_or_superadmin au schedule_id st with
  | .error e => (.error e, st)
  | .ok () =>
    match MemRepo.get_template template_id st with
    | none => (.error .NotFound, st)
    | some template =>
      if template.schedule_id ≠ schedule_id then (.error .Forbidden, st)
      else
        match template.definition with
        | none => (.error (.BadRequest "invalid template definition"), st)
        | some slots =>
          apply_template_loop schedule_id au.id week_start now slots st

/-- The success path of the insert loop in isolation: the state after
inserting shifts for a list of slots that all expand. -/
def insert_ok_slots (schedule_id created_by : Uuid) (week_start now : Int) :
    List TemplateSlot → MemState → MemState
  | [], st => st
  | slot :: rest, st =>
    match expand_slot week_start slot with
    | .error _ => st
    | .ok se =>
      insert_ok_slots schedule_id created_by week_start now rest
        (MemRepo.create_shift now
          { schedule_id := schedule_id, starts_at := se.1, ends_at := se.2,
            period := slot.period, created_by := created_by } st).2

/-- Every failure of the per-slot expansion is a BadRequest. -/
theorem expand_slot_error_bad_request {week_start : Int} {slot : TemplateSlot}
    {e : AppError} (h : expand_slot week_start slot = .error e) :
    ∃ msg, e = .BadRequest msg := by
  unfold expand_slot at h
  split at h
  · exact ⟨_, (Except.error.injEq _ _).mp h |>.symm⟩
  · split at h
    · exact ⟨_, (Except.error.injEq _ _).mp h |>.symm⟩
    · split at h
      · exact ⟨_, (Except.error.injEq _ _).mp h |>.symm⟩
      · dsimp only at h
        split at h
        · exact ⟨_, (Except.error.injEq _ _).mp h |>.symm⟩
        · exact absurd h (by simp)

/-- C2: for every template slot whose computed end instant is at most its
computed start instant, expansion adds exactly one calendar day (1440
minutes) to the end instant and makes no adjustment otherwise, so the
adjustment fires at most once per slot; and the slot with dow 5, period
Night, start 22:00, end 06:00 applied to week_start 2024-01-01 yields a
shift from 2024-01-06T22:00:00Z to 2024-01-07T06:00:00Z. -/
theorem expand_slot_overnight_rule :
    (∀ (week_start : Int) (slot : TemplateSlot) (sh sm eh em : Nat),
      parseHHMM slot.start = some (sh, sm) →
      parseHHMM slot.«end» = some (eh, em) →
      0 ≤ slot.dow → slot.dow ≤ 6 →
      week_start + slot.dow ≤ chrono_max_day →
      expand_slot week_start slot =
        .ok (instantOf (week_start + slot.dow) (sh, sm),
          if instantOf (week_start + slot.dow) (eh, em) ≤
              instantOf (week_start + slot.dow) (sh, sm) then
            instantOf (week_start + slot.dow) (eh, em) + 1440
          else
            instantOf (week_start + slot.dow) (eh, em))) ∧
    expand_slot (days_from_civil 2024 1 1)
        { dow := 5, period := .Night, start := "22:00", «end» := "06:00" } =
      .ok (days_from_civil 2024 1 6 * 1440 + 22 * 60,
           days_from_civil 2024 1 7 * 1440 + 6 * 60) := by
  constructor
  · intro week_start slot sh sm eh em h1 h2 hd0 hd6 hmax
    unfold expand_slot
    rw [if_neg (not_not_intro ⟨hd0, hd6⟩), h1, h2]
    dsimp only
    rw [if_neg (not_lt.mpr hmax)]
  · rfl

/-- Witness for C2 at the concrete spec example. -/
theorem expand_slot_overnight_rule_witness :
    expand_slot 19723
        { dow := 5, period := .Night, start := "22:00", «end» := "06:00" } =
      .ok (instantOf (19723 + 5) (22, 0),
        if instantOf (19723 + 5) (6, 0) ≤ instantOf (19723 + 5) (22, 0) then
          instantOf (19723 + 5) (6, 0) + 1440
        else instantOf (19723 + 5) (6, 0)) :=
  expand_slot_overnight_rule.1 19723
    { dow := 5, period := .Night, start := "22:00", «end» := "06:00" }
    22 0 6 0 (by decide) (by decide) (by decide) (by decide) (by decide)

/-- The admin gate can only fail with Forbidden. -/
theorem require_admin_error_forbidden {au : AuthUser} {schedule_id : Uuid}
    {st : MemState} {e : AppError}
    (h : require_admin_or_superadmin au schedule_id st = .error e) :
    e = .Forbidden := by
  unfold require_admin_or_superadmin at h
  split at h
  · exact absurd h (by simp)
  · split at h
    · exact ((Except.error.injEq _ _).mp h).symm
    · split at h
      · exact ((Except.error.injEq _ _).mp h).symm
      · exact absurd h (by simp)

/-- C9: when the referenced template exists but is owned by a different
schedule than the one named in the request path, apply_template fails with
Forbidden and leaves the state untouched (so no shift is inserted),
whether or not the caller passes the admin gate (that gate can itself only
fail with Forbidden). -/
theorem apply_template_foreign_template_forbidden
    (au : AuthUser) (schedule_id template_id : Uuid) (week_start now : Int)
    (st : MemState) (template : RotationTemplate)
    (hget : MemRepo.get_template template_id st = some template)
    (hne : template.schedule_id ≠ schedule_id) :
    apply_template au schedule_id template_id week_start now st =
      (.error .Forbidden, st) := by
  unfold apply_template
  cases hreq : require_admin_or_superadmin au schedule_id st with
  | error e => rw [require_admin_error_forbidden hreq]
  | ok u =>
    cases u
    rw [hget]
    dsimp only
    rw [if_pos hne]

/-- Witness for C9 at a one-template state. -/
theorem apply_template_foreign_template_forbidden_witness :
    apply_template { id := 7, is_superadmin := true } 3 5 19723 0
        { users := [], schedules := [], members := [], shifts := [],
          comments := [],
          templates := [{ id := 5, schedule_id := 4, name := "t",
                          definition := some [], created_by := 7,
                          created_at := 0 }],
          next_id := 6 } =
      (.error .Forbidden,
        { users := [], schedules := [], members := [], shifts := [],
          comments := [],
          templates := [{ id := 5, schedule_id := 4, name := "t",
                          definition := some [], created_by := 7,
                          created_at := 0 }],
          next_id := 6 }) :=
  apply_template_foreign_template_forbidden
    { id := 7, is_superadmin := true } 3 5 19723 0 _
    { id := 5, schedule_id := 4, name := "t", definition := some [],
      created_by := 7, created_at := 0 }
    (by decide) (by decide)

/-- C10: a successful assign request persists Some(target), target being the
requested user or by default the caller: the post-state maps exactly the
named shift to that assignee, and reading the shift back yields
assigned_user_id = some target. The handler never writes an unset
assignee. -/
theorem assign_shift_persists_some
    (au : AuthUser) (shift_id : Uuid) (req : Option Uuid) (st st2 : MemState)
    (hok : assign_shift au shift_id req st = (.ok (), st2)) :
    st2.shifts = st.shifts.map (fun x =>
      if x.id == shift_id then
        { x with assigned_user_id := some (req.getD au.id) }
      else x) ∧
    ∃ shift2, MemRepo.get_shift shift_id st2 = some shift2 ∧
      shift2.assigned_user_id = some (req.getD au.id) := by
  unfold assign_shift at hok
  cases hshift : MemRepo.get_shift shift_id st with
  | none => rw [hshift] at hok; exact absurd (congrArg Prod.fst hok) (by simp)
  | some shift =>
    rw [hshift] at hok
    dsimp only at hok
    have hfind : st.shifts.find? (fun x => x.id == shift_id) = some shift := hshift
    cases hreq : require_member_or_superadmin au shift.schedule_id st with
    | error e => rw [hreq] at hok; exact absurd (congrArg Prod.fst hok) (by simp)
    | ok role =>
      rw [hreq] at hok
      dsimp only at hok
      split at hok
      · exact absurd (congrArg Prod.fst hok) (by simp)
      · unfold MemRepo.assign_shift at hok
        rw [if_pos] at hok
        · have hst2 : st2 = { st with shifts := st.shifts.map (fun x =>
              if x.id == shift_id then
                { x with assigned_user_id := some (req.getD au.id) }
              else x) } := (Prod.ext_iff.mp hok).2.symm
          subst hst2
          refine ⟨rfl, ?_⟩
          unfold MemRepo.get_shift
          dsimp only
          rw [List.find?_map]
          have hcomp : ((fun x : Shift => x.id == shift_id) ∘ (fun x : Shift =>
              if x.id == shift_id then
                { x with assigned_user_id := some (req.getD au.id) }
              else x)) = (fun x : Shift => x.id == shift_id) := by
            funext x
            by_cases hx : x.id == shift_id
            · simp [Function.comp, hx]
            · simp [Function.comp, hx]
          rw [hcomp, hfind]
          refine ⟨_, rfl, ?_⟩
          have hp := List.find?_some hfind
          simp only [Option.map_some]
          rw [if_pos hp]
        · have hp := List.find?_some hfind
          have hm := List.mem_of_find?_eq_some hfind
          exact List.any_eq_true.mpr ⟨shift, hm, hp⟩

/-- Witness for C10 at a one-shift state. -/
theorem assign_shift_persists_some_witness :
    ({ users := [], schedules := [], members := [((2, 9), ScheduleRole.User)],
       shifts := [{ id := 4, schedule_id := 2, starts_at := 0, ends_at := 60,
                    period := Period.Morning, assigned_user_id := some 9,
                    created_by := 9, created_at := 0 }],
       comments := [], templates := [], next_id := 5 } : MemState).shifts =
      ({ users := [], schedules := [],
         members := [((2, 9), ScheduleRole.User)],
         shifts := [{ id := 4, schedule_id := 2, starts_at := 0, ends_at := 60,
                      period := Period.Morning, assigned_user_id := none,
                      created_by := 9, created_at := 0 }],
         comments := [], templates := [], next_id := 5 } : MemState).shifts.map
        (fun x => if x.id == 4 then
          { x with assigned_user_id := some ((none : Option Uuid).getD 9) }
          else x) ∧
    ∃ shift2, MemRepo.get_shift 4
        { users := [], schedules := [], members := [((2, 9), ScheduleRole.User)],
          shifts := [{ id := 4, schedule_id := 2, starts_at := 0, ends_at := 60,
                       period := Period.Morning, assigned_user_id := some 9,
                       created_by := 9, created_at := 0 }],
          comments := [], templates := [], next_id := 5 } = some shift2 ∧
      shift2.assigned_user_id = some ((none : Option Uuid).getD 9) :=
  assign_shift_persists_some { id := 9, is_superadmin := false } 4 none
    { users := [], schedules := [], members := [((2, 9), ScheduleRole.User)],
      shifts := [{ id := 4, schedule_id := 2, starts_at := 0, ends_at := 60,
                   period := Period.Morning, assigned_user_id := none,
                   created_by := 9, created_at := 0 }],
      comments := [], templates := [], next_id := 5 }
    { users := [], schedules := [], members := [((2, 9), ScheduleRole.User)],
      shifts := [{ id := 4, schedule_id := 2, starts_at := 0, ends_at := 60,
                   period := Period.Morning, assigned_user_id := some 9,
                   created_by := 9, created_at := 0 }],
      comments := [], templates := [], next_id := 5 }
    (by rfl)

/-- C4: for shift assignment, the target defaults to the caller when the
request leaves it unset; a member assigning the shift to themselves
succeeds whatever their role; a non-admin non-superadmin member targeting
another user gets Forbidden with the state untouched; an Admin member or a
superadmin may target any user. -/
theorem assign_shift_authorization :
    (∀ (au : AuthUser) (shift_id : Uuid) (st : MemState),
      assign_shift au shift_id none st = assign_shift au shift_id (some au.id) st) ∧
    (∀ (au : AuthUser) (shift_id : Uuid) (st : MemState) (shift : Shift)
        (role : ScheduleRole),
      MemRepo.get_shift shift_id st = some shift →
      MemRepo.get_schedule_role shift.schedule_id au.id st = some role →
      (assign_shift au shift_id (some au.id) st).1 = .ok ()) ∧
    (∀ (au : AuthUser) (shift_id : Uuid) (st : MemState) (shift : Shift)
        (target : Uuid),
      MemRepo.get_shift shift_id st = some shift →
      au.is_superadmin = false →
      MemRepo.get_schedule_role shift.schedule_id au.id st = some .User →
      target ≠ au.id →
      assign_shift au shift_id (some target) st = (.error .Forbidden, st)) ∧
    (∀ (au : AuthUser) (shift_id : Uuid) (st : MemState) (shift : Shift)
        (target : Uuid),
      MemRepo.get_shift shift_id st = some shift →
      (au.is_superadmin = true ∨
        MemRepo.get_schedule_role shift.schedule_id au.id st = some .Admin) →
      (assign_shift au shift_id (some target) st).1 = .ok ()) := by
  have hassign_ok : ∀ (shift_id : Uuid) (st : MemState) (shift : Shift)
      (t : Option Uuid),
      st.shifts.find? (fun x => x.id == shift_id) = some shift →
      (MemRepo.assign_shift shift_id t st).1 = .ok () := by
    intro shift_id st shift t hfind
    unfold MemRepo.assign_shift
    have hp := List.find?_some hfind
    have hm := List.mem_of_find?_eq_some hfind
    rw [if_pos (List.any_eq_true.mpr ⟨shift, hm, hp⟩)]
  refine ⟨?_, ?_, ?_, ?_⟩
  · intro au shift_id st
    rfl
  · intro au shift_id st shift role hshift hrole
    unfold assign_shift
    rw [hshift]
    dsimp only
    have hfind : st.shifts.find? (fun x => x.id == shift_id) = some shift := hshift
    cases hreq : require_member_or_superadmin au shift.schedule_id st with
    | error e =>
      exact absurd hreq (by
        unfold require_member_or_superadmin
        split
        · simp
        · rw [hrole]; simp)
    | ok r =>
      dsimp only
      rw [if_neg (fun h => h.1 rfl)]
      exact hassign_ok shift_id st shift _ hfind
  · intro au shift_id st shift target hshift hsa hrole htarget
    unfold assign_shift
    rw [hshift]
    dsimp only
    unfold require_member_or_superadmin
    rw [if_neg (by rw [hsa]; exact Bool.false_ne_true), hrole]
    dsimp only
    rw [if_pos ⟨htarget, by rw [hsa]; simp⟩]
  · intro au shift_id st shift target hshift hadm
    unfold assign_shift
    rw [hshift]
    dsimp only
    have hfind : st.shifts.find? (fun x => x.id == shift_id) = some shift := hshift
    rcases hadm with hsa | hrole
    · unfold require_member_or_superadmin
      rw [if_pos hsa]
      dsimp only
      rw [if_neg (fun h => h.2 (Or.inl hsa))]
      exact hassign_ok shift_id st shift _ hfind
    · unfold require_member_or_superadmin
      cases hsa : au.is_superadmin with
      | true =>
        rw [if_pos rfl]
        dsimp only
        rw [if_neg (fun h => h.2 (Or.inl rfl))]
        exact hassign_ok shift_id st shift _ hfind
      | false =>
        rw [if_neg Bool.false_ne_true, hrole]
        dsimp only
        rw [if_neg (fun h => h.2 (Or.inr rfl))]
        exact hassign_ok shift_id st shift _ hfind

/-- Witness for C4: instantiate each part on a two-member one-shift state
(user 9 a plain member, user 8 the Admin). -/
theorem assign_shift_authorization_witness :
    assign_shift { id := 9, is_superadmin := false } 4 none
        { users := [], schedules := [],
          members := [((2, 8), ScheduleRole.Admin), ((2, 9), ScheduleRole.User)],
          shifts := [{ id := 4, schedule_id := 2, starts_at := 0, ends_at := 60,
                       period := Period.Morning, assigned_user_id := none,
                       created_by := 8, created_at := 0 }],
          comments := [], templates := [], next_id := 5 } =
      assign_shift { id := 9, is_superadmin := false } 4 (some 9)
        { users := [], schedules := [],
          members := [((2, 8), ScheduleRole.Admin), ((2, 9), ScheduleRole.User)],
          shifts := [{ id := 4, schedule_id := 2, starts_at := 0, ends_at := 60,
                       period := Period.Morning, assigned_user_id := none,
                       created_by := 8, created_at := 0 }],
          comments := [], templates := [], next_id := 5 } ∧
    (assign_shift { id := 9, is_superadmin := false } 4 (some 9)
        { users := [], schedules := [],
          members := [((2, 8), ScheduleRole.Admin), ((2, 9), ScheduleRole.User)],
          shifts := [{ id := 4, schedule_id := 2, starts_at := 0, ends_at := 60,
                       period := Period.Morning, assigned_user_id := none,
                       created_by := 8, created_at := 0 }],
          comments := [], templates := [], next_id := 5 }).1 = .ok () ∧
    assign_shift { id := 9, is_superadmin := false } 4 (some 8)
        { users := [], schedules := [],
          members := [((2, 8), ScheduleRole.Admin), ((2, 9), ScheduleRole.User)],
          shifts := [{ id := 4, schedule_id := 2, starts_at := 0, ends_at := 60,
                       period := Period.Morning, assigned_user_id := none,
                       created_by := 8, created_at := 0 }],
          comments := [], templates := [], next_id := 5 } =
      (.error .Forbidden,
        { users := [], schedules := [],
          members := [((2, 8), ScheduleRole.Admin), ((2, 9), ScheduleRole.User)],
          shifts := [{ id := 4, schedule_id := 2, starts_at := 0, ends_at := 60,
                       period := Period.Morning, assigned_user_id := none,
                       created_by := 8, created_at := 0 }],
          comments := [], templates := [], next_id := 5 }) ∧
    (assign_shift { id := 8, is_superadmin := false } 4 (some 9)
        { users := [], schedules := [],
          members := [((2, 8), ScheduleRole.Admin), ((2, 9), ScheduleRole.User)],
          shifts := [{ id := 4, schedule_id := 2, starts_at := 0, ends_at := 60,
                       period := Period.Morning, assigned_user_id := none,
                       created_by := 8, created_at := 0 }],
          comments := [], templates := [], next_id := 5 }).1 = .ok () :=
  ⟨assign_shift_authorization.1 { id := 9, is_superadmin := false } 4
    { users := [], schedules := [],
      members := [((2, 8), ScheduleRole.Admin), ((2, 9), ScheduleRole.User)],
      shifts := [{ id := 4, schedule_id := 2, starts_at := 0, ends_at := 60,
                   period := Period.Morning, assigned_user_id := none,
                   created_by := 8, created_at := 0 }],
      comments := [], templates := [], next_id := 5 },
   assign_shift_authorization.2.1 { id := 9, is_superadmin := false } 4
    { users := [], schedules := [],
      members := [((2, 8), ScheduleRole.Admin), ((2, 9), ScheduleRole.User)],
      shifts := [{ id := 4, schedule_id := 2, starts_at := 0, ends_at := 60,
                   period := Period.Morning, assigned_user_id := none,
                   created_by := 8, created_at := 0 }],
      comments := [], templates := [], next_id := 5 }
    { id := 4, schedule_id := 2, starts_at := 0, ends_at := 60,
      period := Period.Morning, assigned_user_id := none,
      created_by := 8, created_at := 0 } ScheduleRole.User
    (by rfl) (by rfl),
   assign_shift_authorization.2.2.1 { id := 9, is_superadmin := false } 4
    { users := [], schedules := [],
      members := [((2, 8), ScheduleRole.Admin), ((2, 9), ScheduleRole.User)],
      shifts := [{ id := 4, schedule_id := 2, starts_at := 0, ends_at := 60,
                   period := Period.Morning, assigned_user_id := none,
                   created_by := 8, created_at := 0 }],
      comments := [], templates := [], next_id := 5 }
    { id := 4, schedule_id := 2, starts_at := 0, ends_at := 60,
      period := Period.Morning, assigned_user_id := none,
      created_by := 8, created_at := 0 } 8
    (by rfl) (by rfl) (by rfl) (by decide),
   assign_shift_authorization.2.2.2 { id := 8, is_superadmin := false } 4
    { users := [], schedules := [],
      members := [((2, 8), ScheduleRole.Admin), ((2, 9), ScheduleRole.User)],
      shifts := [{ id := 4, schedule_id := 2, starts_at := 0, ends_at := 60,
                   period := Period.Morning, assigned_user_id := none,
                   created_by := 8, created_at := 0 }],
      comments := [], templates := [], next_id := 5 }
    { id := 4, schedule_id := 2, starts_at := 0, ends_at := 60,
      period := Period.Morning, assigned_user_id := none,
      created_by := 8, created_at := 0 } 9
    (by rfl) (Or.inr (by rfl))⟩

/-- C5: a comment request can only succeed when the caller is a member or a
superadmin of the shift schedule and moreover is superadmin, holds the
Admin role there, or is the shift assigned user; a non-superadmin member
with role User who is not the assignee gets Forbidden with the state
untouched. -/
theorem add_shift_comment_authorization :
    (∀ (au : AuthUser) (shift_id : Uuid) (body : String) (now : Int)
        (st st2 : MemState) (c : ShiftComment),
      add_shift_comment au shift_id body now st = (.ok c, st2) →
      ∃ shift, MemRepo.get_shift shift_id st = some shift ∧
        (au.is_superadmin = true ∨
          MemRepo.get_schedule_role shift.schedule_id au.id st ≠ none) ∧
        (au.is_superadmin = true ∨
          MemRepo.get_schedule_role shift.schedule_id au.id st = some .Admin ∨
          shift.assigned_user_id = some au.id)) ∧
    (∀ (au : AuthUser) (shift_id : Uuid) (body : String) (now : Int)
        (st : MemState) (shift : Shift),
      MemRepo.get_shift shift_id st = some shift →
      au.is_superadmin = false →
      MemRepo.get_schedule_role shift.schedule_id au.id st = some .User →
      shift.assigned_user_id ≠ some au.id →
      add_shift_comment au shift_id body now st = (.error .Forbidden, st)) := by
  constructor
  · intro au shift_id body now st st2 c hok
    unfold add_shift_comment at hok
    cases hget : MemRepo.get_shift shift_id st with
    | none => rw [hget] at hok; exact absurd (congrArg Prod.fst hok) (by simp)
    | some shift =>
      rw [hget] at hok
      dsimp only at hok
      refine ⟨shift, rfl, ?_⟩
      cases hsa : au.is_superadmin with
      | true => exact ⟨Or.inl rfl, Or.inl rfl⟩
      | false =>
        unfold require_member_or_superadmin at hok
        rw [hsa, if_neg Bool.false_ne_true] at hok
        cases hrole : MemRepo.get_schedule_role shift.schedule_id au.id st with
        | none =>
          rw [hrole] at hok
          exact absurd (congrArg Prod.fst hok) (by simp)
        | some role =>
          rw [hrole] at hok
          dsimp only at hok
          split at hok
          · exact absurd (congrArg Prod.fst hok) (by simp)
          · rename_i hcond
            refine ⟨Or.inr (by simp), ?_⟩
            by_cases hr : role = ScheduleRole.Admin
            · exact Or.inr (Or.inl (by rw [hr]))
            · have hassigned : shift.assigned_user_id = some au.id := by
                by_contra hna
                exact hcond ⟨Bool.false_ne_true, hr, hna⟩
              exact Or.inr (Or.inr hassigned)
  · intro au shift_id body now st shift hget hsa hrole hna
    unfold add_shift_comment
    rw [hget]
    dsimp only
    unfold require_member_or_superadmin
    rw [hsa, if_neg Bool.false_ne_true, hrole]
    dsimp only
    rw [if_pos ⟨Bool.false_ne_true, fun h => ScheduleRole.noConfusion h, hna⟩]

/-- Witness for C5: an Admin member comments with success, and a plain
member who is not the assignee is forbidden, on a one-shift state. -/
theorem add_shift_comment_authorization_witness :
    (∃ shift, MemRepo.get_shift 4
        { users := [], schedules := [],
          members := [((2, 8), ScheduleRole.Admin), ((2, 9), ScheduleRole.User)],
          shifts := [{ id := 4, schedule_id := 2, starts_at := 0, ends_at := 60,
                       period := Period.Morning, assigned_user_id := none,
                       created_by := 8, created_at := 0 }],
          comments := [], templates := [], next_id := 5 } = some shift ∧
      ((false = true) ∨
        MemRepo.get_schedule_role shift.schedule_id 8
          { users := [], schedules := [],
            members := [((2, 8), ScheduleRole.Admin), ((2, 9), ScheduleRole.User)],
            shifts := [{ id := 4, schedule_id := 2, starts_at := 0, ends_at := 60,
                         period := Period.Morning, assigned_user_id := none,
                         created_by := 8, created_at := 0 }],
            comments := [], templates := [], next_id := 5 } ≠ none) ∧
      ((false = true) ∨
        MemRepo.get_schedule_role shift.schedule_id 8
          { users := [], schedules := [],
            members := [((2, 8), ScheduleRole.Admin), ((2, 9), ScheduleRole.User)],
            shifts := [{ id := 4, schedule_id := 2, starts_at := 0, ends_at := 60,
                         period := Period.Morning, assigned_user_id := none,
                         created_by := 8, created_at := 0 }],
            comments := [], templates := [], next_id := 5 } = some .Admin ∨
        shift.assigned_user_id = some 8)) ∧
    add_shift_comment { id := 9, is_superadmin := false } 4 "hi" 0
        { users := [], schedules := [],
          members := [((2, 8), ScheduleRole.Admin), ((2, 9), ScheduleRole.User)],
          shifts := [{ id := 4, schedule_id := 2, starts_at := 0, ends_at := 60,
                       period := Period.Morning, assigned_user_id := none,
                       created_by := 8, created_at := 0 }],
          comments := [], templates := [], next_id := 5 } =
      (.error .Forbidden,
        { users := [], schedules := [],
          members := [((2, 8), ScheduleRole.Admin), ((2, 9), ScheduleRole.User)],
          shifts := [{ id := 4, schedule_id := 2, starts_at := 0, ends_at := 60,
                       period := Period.Morning, assigned_user_id := none,
                       created_by := 8, created_at := 0 }],
          comments := [], templates := [], next_id := 5 }) :=
  ⟨add_shift_comment_authorization.1 { id := 8, is_superadmin := false } 4 "hi" 0
    { users := [], schedules := [],
      members := [((2, 8), ScheduleRole.Admin), ((2, 9), ScheduleRole.User)],
      shifts := [{ id := 4, schedule_id := 2, starts_at := 0, ends_at := 60,
                   period := Period.Morning, assigned_user_id := none,
                   created_by := 8, created_at := 0 }],
      comments := [], templates := [], next_id := 5 }
    { users := [], schedules := [],
      members := [((2, 8), ScheduleRole.Admin), ((2, 9), ScheduleRole.User)],
      shifts := [{ id := 4, schedule_id := 2, starts_at := 0, ends_at := 60,
                   period := Period.Morning, assigned_user_id := none,
                   created_by := 8, created_at := 0 }],
      comments := [(4, [{ id := 5, shift_id := 4, user_id := 8, body := "hi",
                          created_at := 0 }])],
      templates := [], next_id := 6 }
    { id := 5, shift_id := 4, user_id := 8, body := "hi", created_at := 0 }
    (by rfl),
   add_shift_comment_authorization.2 { id := 9, is_superadmin := false } 4 "hi" 0
    { users := [], schedules := [],
      members := [((2, 8), ScheduleRole.Admin), ((2, 9), ScheduleRole.User)],
      shifts := [{ id := 4, schedule_id := 2, starts_at := 0, ends_at := 60,
                   period := Period.Morning, assigned_user_id := none,
                   created_by := 8, created_at := 0 }],
      comments := [], templates := [], next_id := 5 }
    { id := 4, schedule_id := 2, starts_at := 0, ends_at := 60,
      period := Period.Morning, assigned_user_id := none,
      created_by := 8, created_at := 0 }
    (by rfl) (by rfl) (by rfl) (by decide)⟩

/-- C8: a valid registration on an empty user store creates a superadmin;
any successful registration on a nonempty store creates a non-superadmin;
and the schedule, membership, shift, comment and template operations never
touch the user store, so no later such operation can change any user
is_superadmin flag. -/
theorem register_superadmin_rule :
    (∀ (email password : String) (now : Int) (st : MemState),
      st.users = [] →
      rust_is_empty (rust_to_lowercase (rust_trim email)) = false →
      8 ≤ password.utf8ByteSize →
      ∃ u st2, register email password now st = (.ok u, st2) ∧
        u.is_superadmin = true) ∧
    (∀ (email password : String) (now : Int) (st st2 : MemState) (u : User),
      st.users ≠ [] →
      register email password now st = (.ok u, st2) →
      u.is_superadmin = false) ∧
    (∀ (now : Int) (ns : NewSchedule) (st : MemState),
      (MemRepo.create_schedule now ns st).2.users = st.users) ∧
    (∀ (schedule_id user_id : Uuid) (role : ScheduleRole) (st : MemState),
      (MemRepo.add_member schedule_id user_id role st).2.users = st.users) ∧
    (∀ (schedule_id user_id : Uuid) (role : ScheduleRole) (st : MemState),
      (MemRepo.set_member_role schedule_id user_id role st).2.users = st.users) ∧
    (∀ (now : Int) (ns : NewShift) (st : MemState),
      (MemRepo.create_shift now ns st).2.users = st.users) ∧
    (∀ (shift_id : Uuid) (t : Option Uuid) (st : MemState),
      (MemRepo.assign_shift shift_id t st).2.users = st.users) ∧
    (∀ (now : Int) (nc : NewShiftComment) (st : MemState),
      (MemRepo.add_shift_comment now nc st).2.users = st.users) ∧
    (∀ (now : Int) (nt : NewTemplate) (st : MemState),
      (MemRepo.create_template now nt st).2.users = st.users) := by
  refine ⟨?_, ?_, ?_, ?_, ?_, ?_, ?_, ?_, ?_⟩
  · intro email password now st hempty hmail hpw
    unfold register
    rw [if_neg]
    · unfold MemRepo.create_user
      rw [if_neg]
      · refine ⟨_, _, rfl, ?_⟩
        dsimp only
        unfold MemRepo.count_users
        rw [hempty]
        rfl
      · rw [hempty]
        simp
    · rw [hmail]
      push_neg
      exact ⟨Bool.false_ne_true, hpw⟩
  · intro email password now st st2 u hne hok
    unfold register at hok
    dsimp only at hok
    split at hok
    · exact absurd (congrArg Prod.fst hok) (by simp)
    · unfold MemRepo.create_user at hok
      split at hok
      · exact absurd (congrArg Prod.fst hok) (by simp)
      · have hu := congrArg Prod.fst hok
        dsimp only at hu
        have := (Except.ok.injEq _ _).mp hu
        rw [← this]
        dsimp only
        unfold MemRepo.count_users
        have hlen : st.users.length ≠ 0 := fun h =>
          hne (List.length_eq_zero.mp h)
        have hInt : ((st.users.length : Int)) ≠ 0 := by
          exact_mod_cast hlen
        exact beq_eq_false_iff_ne.mpr hInt
  · intro now ns st; rfl
  · intro schedule_id user_id role st
    unfold MemRepo.add_member
    split <;> rfl
  · intro schedule_id user_id role st
    unfold MemRepo.set_member_role
    split <;> rfl
  · intro now ns st; rfl
  · intro shift_id t st
    unfold MemRepo.assign_shift
    split <;> rfl
  · intro now nc st; rfl
  · intro now nt st; rfl

/-- Witness for C8: user a@example.com registers first on the empty store,
then a second registration on the resulting store is not superadmin, and
one schedule-side operation is applied to show user preservation. -/
theorem register_superadmin_rule_witness :
    (∃ u st2, register "a@example.com" "password1" 0
        { users := [], schedules := [], members := [], shifts := [],
          comments := [], templates := [], next_id := 1 } = (.ok u, st2) ∧
      u.is_superadmin = true) ∧
    ({ id := 2, email := "b@example.com", is_superadmin := false,
       created_at := 0 } : User).is_superadmin = false ∧
    (MemRepo.add_member 3 1 ScheduleRole.User
        { users := [({ id := 1, email := "a@example.com",
                       is_superadmin := true, created_at := 0 },
                     "hash:password1")],
          schedules := [], members := [], shifts := [], comments := [],
          templates := [], next_id := 2 }).2.users =
      ({ users := [({ id := 1, email := "a@example.com",
                      is_superadmin := true, created_at := 0 },
                    "hash:password1")],
         schedules := [], members := [], shifts := [], comments := [],
         templates := [], next_id := 2 } : MemState).users :=
  ⟨register_superadmin_rule.1 "a@example.com" "password1" 0
      { users := [], schedules := [], members := [], shifts := [],
        comments := [], templates := [], next_id := 1 }
      (by rfl) (by rfl) (by decide),
   register_superadmin_rule.2.1 "b@example.com" "password1" 0
      { users := [({ id := 1, email := "a@example.com",
                     is_superadmin := true, created_at := 0 },
                   "hash:password1")],
        schedules := [], members := [], shifts := [], comments := [],
        templates := [], next_id := 2 }
      { users := [({ id := 1, email := "a@example.com",
                     is_superadmin := true, created_at := 0 },
                   "hash:password1"),
                  ({ id := 2, email := "b@example.com",
                     is_superadmin := false, created_at := 0 },
                   "hash:password1")],
        schedules := [], members := [], shifts := [], comments := [],
        templates := [], next_id := 3 }
      { id := 2, email := "b@example.com", is_superadmin := false,
        created_at := 0 }
      (by decide) (by rfl),
   register_superadmin_rule.2.2.2.1 3 1 ScheduleRole.User
      { users := [({ id := 1, email := "a@example.com",
                     is_superadmin := true, created_at := 0 },
                   "hash:password1")],
        schedules := [], members := [], shifts := [], comments := [],
        templates := [], next_id := 2 }⟩

/-- The shifts inserted for a list of slots that all expand: exactly one new
shift per slot, appended after the existing ones. -/
theorem insert_ok_slots_shifts (schedule_id created_by : Uuid)
    (week_start now : Int) :
    ∀ (pre : List TemplateSlot) (st : MemState),
      (∀ s ∈ pre, ∃ p, expand_slot week_start s = .ok p) →
      ∃ tail,
        (insert_ok_slots schedule_id created_by week_start now pre st).shifts =
          st.shifts ++ tail ∧ tail.length = pre.length := by
  intro pre
  induction pre with
  | nil =>
    intro st _
    exact ⟨[], (List.append_nil _).symm, rfl⟩
  | cons slot pre ih =>
    intro st hpre
    obtain ⟨p, hp⟩ := hpre slot (List.mem_cons_self slot pre)
    have hpre' : ∀ s ∈ pre, ∃ q, expand_slot week_start s = .ok q :=
      fun s hs => hpre s (List.mem_cons_of_mem slot hs)
    obtain ⟨tail, htail, hlen⟩ := ih
      (MemRepo.create_shift now
        { schedule_id := schedule_id, starts_at := p.1, ends_at := p.2,
          period := slot.period, created_by := created_by } st).2 hpre'
    refine ⟨(MemRepo.create_shift now
        { schedule_id := schedule_id, starts_at := p.1, ends_at := p.2,
          period := slot.period, created_by := created_by } st).1 :: tail,
      ?_, ?_⟩
    · simp only [insert_ok_slots, hp]
      rw [htail]
      simp [MemRepo.create_shift, List.append_assoc]
    · simp [hlen]

/-- The insert loop of apply_template stops at the first slot that fails to
expand, returning its error and the state holding exactly the shifts of
the valid slots before it. -/
theorem apply_template_loop_error_on_first_invalid (schedule_id created_by : Uuid)
    (week_start now : Int) (bad : TemplateSlot) (rest : List TemplateSlot)
    (e : AppError) (hbad : expand_slot week_start bad = .error e) :
    ∀ (pre : List TemplateSlot) (st : MemState),
      (∀ s ∈ pre, ∃ p, expand_slot week_start s = .ok p) →
      apply_template_loop schedule_id created_by week_start now
          (pre ++ bad :: rest) st =
        (.error e,
          insert_ok_slots schedule_id created_by week_start now pre st) := by
  intro pre
  induction pre with
  | nil =>
    intro st _
    simp only [List.nil_append, apply_template_loop, insert_ok_slots, hbad]
  | cons slot pre ih =>
    intro st hpre
    obtain ⟨p, hp⟩ := hpre slot (List.mem_cons_self slot pre)
    have hpre' : ∀ s ∈ pre, ∃ q, expand_slot week_start s = .ok q :=
      fun s hs => hpre s (List.mem_cons_of_mem slot hs)
    simp only [List.cons_append, apply_template_loop, insert_ok_slots, hp]
    rw [List.append_eq, ih _ hpre']

/-- C3: when every slot before the first invalid one expands and the invalid
slot fails, the apply_template insert loop returns that failure, which is
always a BadRequest, leaving exactly one committed shift per valid slot
before the failure point and none for the invalid slot or any slot after
it. -/
theorem apply_template_first_invalid_aborts
    (schedule_id created_by : Uuid) (week_start now : Int)
    (pre : List TemplateSlot) (bad : TemplateSlot) (rest : List TemplateSlot)
    (st : MemState) (e : AppError)
    (hpre : ∀ s ∈ pre, ∃ p, expand_slot week_start s = .ok p)
    (hbad : expand_slot week_start bad = .error e) :
    (∃ msg, e = .BadRequest msg) ∧
    apply_template_loop schedule_id created_by week_start now
        (pre ++ bad :: rest) st =
      (.error e,
        insert_ok_slots schedule_id created_by week_start now pre st) ∧
    ∃ tail,
      (insert_ok_slots schedule_id created_by week_start now pre st).shifts =
        st.shifts ++ tail ∧ tail.length = pre.length :=
  ⟨expand_slot_error_bad_request hbad,
   apply_template_loop_error_on_first_invalid schedule_id created_by week_start
     now bad rest e hbad pre st hpre,
   insert_ok_slots_shifts schedule_id created_by week_start now pre st hpre⟩

/-- Witness for C3: a template whose first slot has dow 7 inserts zero
shifts and fails BadRequest. -/
theorem apply_template_first_invalid_aborts_witness :
    (∃ msg, (AppError.BadRequest "slot.dow must be 0..6") = .BadRequest msg) ∧
    apply_template_loop 2 8 19723 0
        ([] ++ { dow := 7, period := Period.Night, start := "22:00",
                 «end» := "06:00" } :: [])
        { users := [], schedules := [], members := [], shifts := [],
          comments := [], templates := [], next_id := 5 } =
      (.error (AppError.BadRequest "slot.dow must be 0..6"),
        insert_ok_slots 2 8 19723 0 []
          { users := [], schedules := [], members := [], shifts := [],
            comments := [], templates := [], next_id := 5 }) ∧
    ∃ tail,
      (insert_ok_slots 2 8 19723 0 []
          { users := [], schedules := [], members := [], shifts := [],
            comments := [], templates := [], next_id := 5 }).shifts =
        ({ users := [], schedules := [], members := [], shifts := [],
           comments := [], templates := [], next_id := 5 } : MemState).shifts
          ++ tail ∧
      tail.length = ([] : List TemplateSlot).length :=
  apply_template_first_invalid_aborts 2 8 19723 0 []
    { dow := 7, period := Period.Night, start := "22:00", «end» := "06:00" }
    []
    { users := [], schedules := [], members := [], shifts := [],
      comments := [], templates := [], next_id := 5 }
    (AppError.BadRequest "slot.dow must be 0..6")
    (fun s hs => absurd hs (List.not_mem_nil s)) (by rfl)

instance : DecidableRel (fun a b : Shift => a.starts_at ≤ b.starts_at) :=
  fun a b => Int.decLe a.starts_at b.starts_at

instance : IsTotal Shift (fun a b => a.starts_at ≤ b.starts_at) :=
  ⟨fun a b => Int.le_total a.starts_at b.starts_at⟩

instance : IsTrans Shift (fun a b => a.starts_at ≤ b.starts_at) :=
  ⟨fun _ _ _ hab hbc => le_trans hab hbc⟩

/-- Sorting the window filter of a shift table: membership is exactly the
window condition, the output is sorted by start, and it is a permutation
of the filter. -/
theorem sort_filter_shifts_spec (schedule_id : Uuid) (tFrom tTo : Int)
    (l : List Shift) :
    (∀ x, x ∈ List.insertionSort (fun a b => a.starts_at ≤ b.starts_at)
        (l.filter (fun x => x.schedule_id == schedule_id &&
          decide (tFrom ≤ x.starts_at) && decide (x.starts_at < tTo))) ↔
      (x ∈ l ∧ x.schedule_id = schedule_id ∧
        tFrom ≤ x.starts_at ∧ x.starts_at < tTo)) ∧
    List.Sorted (fun a b => a.starts_at ≤ b.starts_at)
      (List.insertionSort (fun a b => a.starts_at ≤ b.starts_at)
        (l.filter (fun x => x.schedule_id == schedule_id &&
          decide (tFrom ≤ x.starts_at) && decide (x.starts_at < tTo)))) ∧
    (List.insertionSort (fun a b => a.starts_at ≤ b.starts_at)
        (l.filter (fun x => x.schedule_id == schedule_id &&
          decide (tFrom ≤ x.starts_at) && decide (x.starts_at < tTo)))).Perm
      (l.filter (fun x => x.schedule_id == schedule_id &&
        decide (tFrom ≤ x.starts_at) && decide (x.starts_at < tTo))) := by
  have hperm := List.perm_insertionSort
    (fun a b : Shift => a.starts_at ≤ b.starts_at)
    (l.filter (fun x => x.schedule_id == schedule_id &&
      decide (tFrom ≤ x.starts_at) && decide (x.starts_at < tTo)))
  refine ⟨?_, List.sorted_insertionSort _ _, hperm⟩
  intro x
  rw [hperm.mem_iff, List.mem_filter]
  simp [and_assoc]

/-- C6: for all from <= to, list_shifts on both adapters returns exactly the
shifts of the schedule whose start lies in the half-open window
(start at or after from, strictly before to), as a list sorted ascending
by start that is a permutation of the window filter, hence nothing else. -/
theorem list_shifts_window_sorted (schedule_id : Uuid) (tFrom tTo : Int)
    (st : MemState) (pst : PgState) (_hft : tFrom ≤ tTo) :
    ((∀ x, x ∈ MemRepo.list_shifts schedule_id tFrom tTo st ↔
        (x ∈ st.shifts ∧ x.schedule_id = schedule_id ∧
          tFrom ≤ x.starts_at ∧ x.starts_at < tTo)) ∧
      List.Sorted (fun a b => a.starts_at ≤ b.starts_at)
        (MemRepo.list_shifts schedule_id tFrom tTo st) ∧
      (MemRepo.list_shifts schedule_id tFrom tTo st).Perm
        (st.shifts.filter (fun x => x.schedule_id == schedule_id &&
          decide (tFrom ≤ x.starts_at) && decide (x.starts_at < tTo)))) ∧
    ((∀ x, x ∈ PgRepo.list_shifts schedule_id tFrom tTo pst ↔
        (x ∈ pst.shift ∧ x.schedule_id = schedule_id ∧
          tFrom ≤ x.starts_at ∧ x.starts_at < tTo)) ∧
      List.Sorted (fun a b => a.starts_at ≤ b.starts_at)
        (PgRepo.list_shifts schedule_id tFrom tTo pst) ∧
      (PgRepo.list_shifts schedule_id tFrom tTo pst).Perm
        (pst.shift.filter (fun x => x.schedule_id == schedule_id &&
          decide (tFrom ≤ x.starts_at) && decide (x.starts_at < tTo)))) :=
  ⟨sort_filter_shifts_spec schedule_id tFrom tTo st.shifts,
   sort_filter_shifts_spec schedule_id tFrom tTo pst.shift⟩

/-- Witness for C6 on a two-shift state queried over a window that keeps one
shift per adapter. -/
theorem list_shifts_window_sorted_witness :
    ((∀ x, x ∈ MemRepo.list_shifts 2 0 100
        { users := [], schedules := [], members := [],
          shifts := [{ id := 4, schedule_id := 2, starts_at := 50,
                       ends_at := 60, period := Period.Morning,
                       assigned_user_id := none, created_by := 8,
                       created_at := 0 },
                     { id := 5, schedule_id := 2, starts_at := 100,
                       ends_at := 160, period := Period.Night,
                       assigned_user_id := none, created_by := 8,
                       created_at := 0 }],
          comments := [], templates := [], next_id := 6 } ↔
        (x ∈ ({ users := [], schedules := [], members := [],
                shifts := [{ id := 4, schedule_id := 2, starts_at := 50,
                             ends_at := 60, period := Period.Morning,
                             assigned_user_id := none, created_by := 8,
                             created_at := 0 },
                           { id := 5, schedule_id := 2, starts_at := 100,
                             ends_at := 160, period := Period.Night,
                             assigned_user_id := none, created_by := 8,
                             created_at := 0 }],
                comments := [], templates := [],
                next_id := 6 } : MemState).shifts ∧
          x.schedule_id = 2 ∧ (0 : Int) ≤ x.starts_at ∧ x.starts_at < 100)) ∧
      List.Sorted (fun a b => a.starts_at ≤ b.starts_at)
        (MemRepo.list_shifts 2 0 100
          { users := [], schedules := [], members := [],
            shifts := [{ id := 4, schedule_id := 2, starts_at := 50,
                         ends_at := 60, period := Period.Morning,
                         assigned_user_id := none, created_by := 8,
                         created_at := 0 },
                       { id := 5, schedule_id := 2, starts_at := 100,
                         ends_at := 160, period := Period.Night,
                         assigned_user_id := none, created_by := 8,
                         created_at := 0 }],
            comments := [], templates := [], next_id := 6 }) ∧
      (MemRepo.list_shifts 2 0 100
          { users := [], schedules := [], members := [],
            shifts := [{ id := 4, schedule_id := 2, starts_at := 50,
                         ends_at := 60, period := Period.Morning,
                         assigned_user_id := none, created_by := 8,
                         created_at := 0 },
                       { id := 5, schedule_id := 2, starts_at := 100,
                         ends_at := 160, period := Period.Night,
                         assigned_user_id := none, created_by := 8,
                         created_at := 0 }],
            comments := [], templates := [], next_id := 6 }).Perm
        (({ users := [], schedules := [], members := [],
            shifts := [{ id := 4, schedule_id := 2, starts_at := 50,
                         ends_at := 60, period := Period.Morning,
                         assigned_user_id := none, created_by := 8,
                         created_at := 0 },
                       { id := 5, schedule_id := 2, starts_at := 100,
                         ends_at := 160, period := Period.Night,
                         assigned_user_id := none, created_by := 8,
                         created_at := 0 }],
            comments := [], templates := [], next_id := 6 } : MemState).shifts.filter
          (fun x => x.schedule_id == 2 &&
            decide ((0 : Int) ≤ x.starts_at) && decide (x.starts_at < 100)))) ∧
    ((∀ x, x ∈ PgRepo.list_shifts 2 0 100
        { app_user := [], schedule := [], schedule_member := [],
          shift := [{ id := 4, schedule_id := 2, starts_at := 50,
                      ends_at := 60, period := Period.Morning,
                      assigned_user_id := none, created_by := 8,
                      created_at := 0 }],
          next_id := 6 } ↔
        (x ∈ ({ app_user := [], schedule := [], schedule_member := [],
                shift := [{ id := 4, schedule_id := 2, starts_at := 50,
                            ends_at := 60, period := Period.Morning,
                            assigned_user_id := none, created_by := 8,
                            created_at := 0 }],
                next_id := 6 } : PgState).shift ∧
          x.schedule_id = 2 ∧ (0 : Int) ≤ x.starts_at ∧ x.starts_at < 100)) ∧
      List.Sorted (fun a b => a.starts_at ≤ b.starts_at)
        (PgRepo.list_shifts 2 0 100
          { app_user := [], schedule := [], schedule_member := [],
            shift := [{ id := 4, schedule_id := 2, starts_at := 50,
                        ends_at := 60, period := Period.Morning,
                        assigned_user_id := none, created_by := 8,
                        created_at := 0 }],
            next_id := 6 }) ∧
      (PgRepo.list_shifts 2 0 100
          { app_user := [], schedule := [], schedule_member := [],
            shift := [{ id := 4, schedule_id := 2, starts_at := 50,
                        ends_at := 60, period := Period.Morning,
                        assigned_user_id := none, created_by := 8,
                        created_at := 0 }],
            next_id := 6 }).Perm
        (({ app_user := [], schedule := [], schedule_member := [],
            shift := [{ id := 4, schedule_id := 2, starts_at := 50,
                        ends_at := 60, period := Period.Morning,
                        assigned_user_id := none, created_by := 8,
                        created_at := 0 }],
            next_id := 6 } : PgState).shift.filter
          (fun x => x.schedule_id == 2 &&
            decide ((0 : Int) ≤ x.starts_at) && decide (x.starts_at < 100)))) :=
  list_shifts_window_sorted 2 0 100
    { users := [], schedules := [], members := [],
      shifts := [{ id := 4, schedule_id := 2, starts_at := 50,
                   ends_at := 60, period := Period.Morning,
                   assigned_user_id := none, created_by := 8,
                   created_at := 0 },
                 { id := 5, schedule_id := 2, starts_at := 100,
                   ends_at := 160, period := Period.Night,
                   assigned_user_id := none, created_by := 8,
                   created_at := 0 }],
      comments := [], templates := [], next_id := 6 }
    { app_user := [], schedule := [], schedule_member := [],
      shift := [{ id := 4, schedule_id := 2, starts_at := 50,
                  ends_at := 60, period := Period.Morning,
                  assigned_user_id := none, created_by := 8,
                  created_at := 0 }],
      next_id := 6 }
    (by decide)

/-- C1 (divergence at the failing input): on the durable adapter,
create_schedule runs two sequential INSERT statements with no enclosing
transaction; when the schedule INSERT succeeds and the membership INSERT
then fails, the call reports Internal while the post-state holds the new
schedule row and no membership row at all, so after the call it is not
the case that both rows exist or neither does. -/
theorem pg_create_schedule_dual_write_not_atomic :
    (PgRepo.create_schedule 0 false true
        { name := "Care", subject_type := "pet", subject_name := "Puppy",
          created_by := 7 }
        { app_user := [], schedule := [], schedule_member := [], shift := [],
          next_id := 1 }).1 = .error .Internal ∧
    (PgRepo.create_schedule 0 false true
        { name := "Care", subject_type := "pet", subject_name := "Puppy",
          created_by := 7 }
        { app_user := [], schedule := [], schedule_member := [], shift := [],
          next_id := 1 }).2.schedule =
      [{ id := 1, name := "Care", subject_type := "pet",
         subject_name := "Puppy", created_by := 7, created_at := 0 }] ∧
    (PgRepo.create_schedule 0 false true
        { name := "Care", subject_type := "pet", subject_name := "Puppy",
          created_by := 7 }
        { app_user := [], schedule := [], schedule_member := [], shift := [],
          next_id := 1 }).2.schedule_member = [] :=
  ⟨rfl, rfl, rfl⟩

/-- C7 (divergence at the failing input): list_schedule_members has no
identical ordering guarantee across the adapters. The in-memory adapter
reads its members map in the unspecified map iteration order, so two
iteration orders of one and the same membership map (a permutation, over
identical users) produce differently ordered outputs; the durable adapter
orders by membership created_at and returns the same output whatever the
physical row order. -/
theorem list_schedule_members_ordering_divergence :
    MemRepo.list_schedule_members 10
        { users := [({ id := 1, email := "a", is_superadmin := false,
                       created_at := 0 }, "h"),
                    ({ id := 2, email := "b", is_superadmin := false,
                       created_at := 0 }, "h")],
          schedules := [], members := [((10, 1), ScheduleRole.Admin),
                                       ((10, 2), ScheduleRole.User)],
          shifts := [], comments := [], templates := [], next_id := 3 } ≠
      MemRepo.list_schedule_members 10
        { users := [({ id := 1, email := "a", is_superadmin := false,
                       created_at := 0 }, "h"),
                    ({ id := 2, email := "b", is_superadmin := false,
                       created_at := 0 }, "h")],
          schedules := [], members := [((10, 2), ScheduleRole.User),
                                       ((10, 1), ScheduleRole.Admin)],
          shifts := [], comments := [], templates := [], next_id := 3 } ∧
    List.Perm
      [((10, 1), ScheduleRole.Admin), ((10, 2), ScheduleRole.User)]
      [((10, 2), ScheduleRole.User), ((10, 1), ScheduleRole.Admin)] ∧
    PgRepo.list_schedule_members 10
        { app_user := [({ id := 1, email := "a", is_superadmin := false,
                          created_at := 0 }, "h"),
                       ({ id := 2, email := "b", is_superadmin := false,
                          created_at := 0 }, "h")],
          schedule := [],
          schedule_member := [{ schedule_id := 10, user_id := 1,
                                role := ScheduleRole.Admin, created_at := 0 },
                              { schedule_id := 10, user_id := 2,
                                role := ScheduleRole.User, created_at := 1 }],
          shift := [], next_id := 3 } =
      PgRepo.list_schedule_members 10
        { app_user := [({ id := 1, email := "a", is_superadmin := false,
                          created_at := 0 }, "h"),
                       ({ id := 2, email := "b", is_superadmin := false,
                          created_at := 0 }, "h")],
          schedule := [],
          schedule_member := [{ schedule_id := 10, user_id := 2,
                                role := ScheduleRole.User, created_at := 1 },
                              { schedule_id := 10, user_id := 1,
                                role := ScheduleRole.Admin, created_at := 0 }],
          shift := [], next_id := 3 } := by
  refine ⟨?_, ?_, ?_⟩
  · decide
  · decide
  · decide

end BuddySchedule
